import Mathlib

/-!
Shallow embedding of the multi-tenant Instagram webhook dispatcher
(`app.py`, `client_manager.py`, `handlers.py`, `models.py`).

Conventions of the embedding:
* Calendar days (UTC) are abstracted to natural numbers: `today : Nat` is the
  current UTC day, `last_reset_date` stores the day of the tenant's last quota
  reset (`none` models a NULL column).
* The SQLAlchemy session is modelled as an explicit `DB` record threaded
  through every operation; a "commit" of a mutated row replaces the row with
  the same primary key.
* The outbound Graph API client (`InstagramAPI`) is an external system; each
  adapter invocation is modelled by an oracle `api : AdapterCall → ApiResult`
  that either returns a result (whose Python truthiness is a `Bool`, since the
  handlers only use `bool(result)`) or raises an exception with a message.
* Python dicts used as JSON payloads become structures whose optional keys are
  `Option` fields; `dict.get` with a default becomes a plain field holding the
  default when absent.  The tenant's `custom_responses` dict becomes an
  insertion-ordered association list, matching Python dict iteration order.
-/

namespace Agent

/-- One tenant row (`models.Client`).  Quota counters are the non-negative
integers the quota machinery maintains. -/
structure Client where
  id : Nat
  name : String
  email : String
  access_token : String
  instagram_account_id : String
  page_id : String
  verify_token : String
  keywords : List String
  auto_reply_enabled : Bool
  custom_responses : List (String × String)
  active : Bool
  daily_message_limit : Nat
  messages_sent_today : Nat
  last_reset_date : Option Nat
deriving DecidableEq, Repr

/-- One outbound-send audit row (`models.Message`). -/
structure Message where
  client_id : Nat
  recipient_id : Option String
  message_type : String
  message_text : Option String
  media_url : Option String
  sent : Bool
  error : Option String
deriving DecidableEq, Repr

/-- Body of a messaging event: presence of the `is_echo` key, and the text
(`message.get('text', '')`). -/
structure MessageBody where
  is_echo : Bool
  text : String
deriving DecidableEq, Repr

/-- A `story_mention` sub-object; `media_id` is `story_mention.get('id')`. -/
structure StoryMention where
  media_id : Option String
deriving DecidableEq, Repr

/-- One element of an entry's `messaging` array. -/
structure MessagingEvent where
  sender_id : Option String
  message : Option MessageBody
  story_mention : Option StoryMention
deriving DecidableEq, Repr

/-- The `value` object of a change event (`value.get('id')`,
`value.get('text', '')`, `value.get('from', {}).get('username', 'unknown')`). -/
structure ChangeValue where
  id : Option String
  text : String
  username : String
deriving DecidableEq, Repr

/-- One element of an entry's `changes` array; `value := none` models a change
dict with no `value` key (`change.get('value')` is `None`). -/
structure ChangeEvent where
  field : Option String
  value : Option ChangeValue
deriving DecidableEq, Repr

/-- One element of the webhook body's `entry` array. -/
structure Entry where
  messaging : Option (List MessagingEvent)
  changes : Option (List ChangeEvent)
deriving DecidableEq, Repr

/-- A webhook delivery body; `entry := none` models a body without the
`entry` key. -/
structure Body where
  entry : Option (List Entry)
deriving DecidableEq, Repr

/-- One inbound-webhook audit row (`models.Webhook`). -/
structure Webhook where
  id : Nat
  client_id : Option Nat
  event_type : String
  payload : Body
  processed : Bool
  error : Option String
deriving DecidableEq, Repr

/-- One credential-key row (`models.ApiKey`). -/
structure ApiKey where
  id : Nat
  client_id : Nat
  key : String
  name : String
  active : Bool
  last_used_at : Option Nat
deriving DecidableEq, Repr

/-- The persistent store reachable through one SQLAlchemy session. -/
structure DB where
  clients : List Client
  messages : List Message
  webhooks : List Webhook
  api_keys : List ApiKey
deriving DecidableEq, Repr

/-- Outcome of one adapter invocation: the Python call either returns a value
whose truthiness is recorded, or raises an exception with a message. -/
inductive ApiResult where
  | ret (truthy : Bool)
  | exn (msg : String)
deriving DecidableEq, Repr

/-- An adapter invocation made by a handler (`InstagramAPI.send_message` or
`InstagramAPI.reply_to_comment`) together with its arguments. -/
inductive AdapterCall where
  | sendMessage (recipient : Option String) (text : String)
  | replyToComment (comment_id : Option String) (text : String)
deriving DecidableEq, Repr

/-- `ClientManager.get_client`: first row whose primary key matches. -/
def get_client (db : DB) (client_id : Nat) : Option Client :=
  db.clients.find? (fun c => c.id == client_id)

/-- Committing a mutated `Client` row: every row with the same primary key is
replaced by the mutated value. -/
def commitClient (db : DB) (c' : Client) : DB :=
  { db with clients := db.clients.map (fun c => if c.id == c'.id then c' else c) }

/-- `ClientManager.get_client_by_verify_token`. -/
def get_client_by_verify_token (db : DB) (token : String) : Option Client :=
  db.clients.find? (fun c => c.verify_token == token)

/-- `ClientManager.check_rate_limit`: on a day different from
`last_reset_date` (or a NULL `last_reset_date`) the counter is reset to 0 and
the reset day committed; then the counter is compared with the daily limit. -/
def check_rate_limit (db : DB) (today : Nat) (client_id : Nat) : Bool × DB :=
  match get_client db client_id with
  | none => (false, db)
  | some c =>
    if c.last_reset_date = some today then
      (decide (c.messages_sent_today < c.daily_message_limit), db)
    else
      let c' := { c with messages_sent_today := 0, last_reset_date := some today }
      (decide (c'.messages_sent_today < c'.daily_message_limit), commitClient db c')

/-- `ClientManager.increment_message_count`: unconditional `+ 1`, with no date
comparison and no reset. -/
def increment_message_count (db : DB) (client_id : Nat) : DB :=
  match get_client db client_id with
  | none => db
  | some c => commitClient db { c with messages_sent_today := c.messages_sent_today + 1 }

/-- `ClientManager.log_message`: appends one `Message` row and, when
`sent = true`, additionally increments the tenant's daily counter. -/
def log_message (db : DB) (client_id : Nat) (recipient_id : Option String)
    (message_type : String) (message_text : Option String)
    (media_url : Option String) (sent : Bool) (error : Option String) : DB :=
  let db1 := { db with messages := db.messages ++
    [{ client_id := client_id, recipient_id := recipient_id, message_type := message_type, message_text := message_text, media_url := media_url, sent := sent, error := error }] }
  if sent then increment_message_count db1 client_id else db1

/-- `ClientManager.log_webhook`: appends one `Webhook` row (autoincrement id
modelled by the current row count) and returns it. -/
def log_webhook (db : DB) (event_type : String) (payload : Body)
    (client_id : Option Nat) : Webhook × DB :=
  let w : Webhook := { id := db.webhooks.length, client_id := client_id, event_type := event_type, payload := payload, processed := false, error := none }
  (w, { db with webhooks := db.webhooks ++ [w] })

/-- `ClientManager.mark_webhook_processed`: sets the processed flag and, when
a truthy error string is supplied, stores it. -/
def mark_webhook_processed (db : DB) (webhook_id : Nat) (error : Option String) : DB :=
  { db with webhooks := db.webhooks.map (fun w =>
      if w.id == webhook_id then
        { w with
          processed := true
          error := (match error with
            | some e => if e = "" then w.error else some e
            | none => w.error) }
      else w) }

/-- `ClientManager.validate_api_key`: looks up an active key row with the given
key value; on a hit, stamps its `last_used_at` and returns the owning client.
The owning client's own `active` flag is never consulted. -/
def validate_api_key (db : DB) (now : Nat) (key : String) : Option Client × DB :=
  match db.api_keys.find? (fun a => a.key == key && a.active) with
  | none => (none, db)
  | some ak =>
    let db' := { db with api_keys := db.api_keys.map (fun a =>
      if a.id == ak.id then { a with last_used_at := some now } else a) }
    (get_client db' ak.client_id, db')

/-- Python's `needle in hay` on lists of characters: `n` occurs contiguously
in the second list. -/
def listInfixOf (n : List Char) : List Char → Bool
  | [] => n.isEmpty
  | c :: rest => n.isPrefixOf (c :: rest) || listInfixOf n rest

/-- Python's substring test `needle in hay` on strings. -/
def substrOf (needle hay : String) : Bool :=
  listInfixOf needle.toList hay.toList

/-- ASCII lowercasing of one character (non-ASCII characters kept), the
behavior Python's `str.lower` and the matching below share on the keyword
alphabets involved. -/
def charLower (c : Char) : Char :=
  if 65 ≤ c.toNat ∧ c.toNat ≤ 90 then Char.ofNat (c.toNat + 32) else c

/-- The `.lower()` calls of the handlers. -/
def strLower (s : String) : String := ⟨s.data.map charLower⟩

/-- `MessageHandler._get_default_response`: ordered built-in intent
categories, first substring match wins, with a catch-all default. -/
def get_default_response (text_lower : String) : String :=
  if ["oi", "olá", "ola", "hey", "boa"].any (fun w => substrOf w text_lower) then
    "Olá! 👋 Como posso ajudar você hoje?"
  else if ["preço", "preco", "valor", "quanto custa"].any (fun w => substrOf w text_lower) then
    "📋 Para informações sobre preços, nossa equipe te enviará todos os detalhes em breve!"
  else if ["horário", "horario", "atendimento"].any (fun w => substrOf w text_lower) then
    "🕐 Nosso horário de atendimento:\nSeg-Sex: 9h às 18h\nSáb: 9h às 13h"
  else if ["catálogo", "catalogo", "produtos"].any (fun w => substrOf w text_lower) then
    "📸 Vou te enviar nosso catálogo completo!"
  else if ["contato", "telefone", "whatsapp"].any (fun w => substrOf w text_lower) then
    "📞 Entre em contato conosco pelos nossos canais oficiais!"
  else
    "Obrigado pela sua mensagem! 🙂 Em breve retornaremos."

/-- The custom-response scan in `MessageHandler.process_message`: the first
keyword (in stored iteration order) whose lowercase form is a substring of the
lowercased text yields its mapped value; the loop breaks at the first hit. -/
def findCustom : List (String × String) → String → Option String
  | [], _ => none
  | (k, v) :: rest, t => if substrOf (strLower k) t then some v else findCustom rest t

/-- Response selection of `MessageHandler.process_message`: a custom hit is
used, except that Python's `if not response:` sends a falsy (empty) custom
text to the built-in default logic. -/
def pickResponse (custom : List (String × String)) (text_lower : String) : String :=
  match findCustom custom text_lower with
  | some r => if r = "" then get_default_response text_lower else r
  | none => get_default_response text_lower

/-- `CommentHandler._generate_comment_response`: fixed ordered reply
categories, addressed to the commenting username. -/
def generate_comment_response (text_lower username : String) : String :=
  if ["preço", "preco", "valor"].any (fun w => substrOf w text_lower) then
    "@" ++ username ++ " Oi! Enviamos os preços por DM! 📩"
  else if ["orçamento", "orcamento"].any (fun w => substrOf w text_lower) then
    "@" ++ username ++ " Olá! Vamos te enviar um orçamento personalizado por DM! 💼"
  else if ["informação", "informacao", "info"].any (fun w => substrOf w text_lower) then
    "@" ++ username ++ " Oi! Te enviamos todas as informações por DM! ✉️"
  else if ["contato", "whatsapp"].any (fun w => substrOf w text_lower) then
    "@" ++ username ++ " Te respondemos por DM! 📱"
  else
    "@" ++ username ++ " Olá! Vamos te responder por DM! 😊"

/-- `MessageHandler.process_message`: quota check first (which may commit a
day-rollover reset), then the auto-reply gate, then response selection and one
`send_message` adapter call; the send and its audit row are wrapped in
try/except, a raised exception being recorded as an unsent row with the error
text.  Returns the resulting store and the adapter calls made. -/
def process_message (api : AdapterCall → ApiResult) (db : DB) (today : Nat)
    (client_id : Nat) (sender_id : Option String) (message_text : String) :
    DB × List AdapterCall :=
  let checked := check_rate_limit db today client_id
  if checked.1 then
    match get_client checked.2 client_id with
    | none => (checked.2, [])
    | some c =>
      if c.auto_reply_enabled then
        let response := pickResponse c.custom_responses (strLower message_text)
        let call := AdapterCall.sendMessage sender_id response
        match api call with
        | .ret t => (log_message checked.2 client_id sender_id "dm" (some response) none t none, [call])
        | .exn m => (log_message checked.2 client_id sender_id "dm" (some response) none false (some m), [call])
      else (checked.2, [])
  else (checked.2, [])

/-- `CommentHandler.process_comment`: quota check, auto-reply gate, keyword
gate, then one `reply_to_comment` adapter call; the except branch only logs,
so a raised exception leaves no `Message` row. -/
def process_comment (api : AdapterCall → ApiResult) (db : DB) (today : Nat)
    (client_id : Nat) (comment_id : Option String) (comment_text : String)
    (username : String) : DB × List AdapterCall :=
  let checked := check_rate_limit db today client_id
  if checked.1 then
    match get_client checked.2 client_id with
    | none => (checked.2, [])
    | some c =>
      if c.auto_reply_enabled then
        let text_lower := strLower comment_text
        if c.keywords.any (fun k => substrOf (strLower k) text_lower) then
          let response := generate_comment_response text_lower username
          let call := AdapterCall.replyToComment comment_id response
          match api call with
          | .ret t => (log_message checked.2 client_id (some username) "comment" (some response) none t none, [call])
          | .exn _ => (checked.2, [call])
        else (checked.2, [])
      else (checked.2, [])
  else (checked.2, [])

/-- The fixed story-mention acknowledgement text. -/
def storyAckText : String := "Obrigado por compartilhar! 🙏✨"

/-- `StoryMentionHandler.process_mention`: only the auto-reply gate (no quota
check), then one `send_message` adapter call; the except branch only logs, so
a raised exception leaves no `Message` row. -/
def process_mention (api : AdapterCall → ApiResult) (db : DB)
    (client_id : Nat) (sender_id : Option String) (media_id : Option String) :
    DB × List AdapterCall :=
  match get_client db client_id with
  | none => (db, [])
  | some c =>
    if c.auto_reply_enabled then
      let call := AdapterCall.sendMessage sender_id storyAckText
      match api call with
      | .ret t => (log_message db client_id sender_id "story_mention" (some storyAckText) none t none, [call])
      | .exn _ => (db, [call])
    else (db, [])

/-- `app.process_messaging_event`: echo-flagged messages are dropped before
any handler runs; a non-empty text goes to the message handler; otherwise a
`story_mention` key goes to the story handler. -/
def process_messaging_event (api : AdapterCall → ApiResult) (db : DB)
    (today : Nat) (client_id : Nat) (ev : MessagingEvent) : DB × List AdapterCall :=
  match ev.message with
  | some m =>
    if m.is_echo then (db, [])
    else if m.text = "" then (db, [])
    else process_message api db today client_id ev.sender_id m.text
  | none =>
    match ev.story_mention with
    | some sm => process_mention api db client_id ev.sender_id sm.media_id
    | none => (db, [])

/-- `app.process_change_event`: a `comments` change is routed to the comment
handler; a change dict with no `value` key raises (`None.get`), modelled as an
`Except.error`; `mentions` and unrecognized fields are ignored. -/
def process_change_event (api : AdapterCall → ApiResult) (db : DB)
    (today : Nat) (client_id : Nat) (ch : ChangeEvent) :
    Except String (DB × List AdapterCall) :=
  if ch.field = some "comments" then
    match ch.value with
    | none => .error "AttributeError"
    | some v => .ok (process_comment api db today client_id v.id v.text v.username)
  else .ok (db, [])

/-- The `for messaging_event in entry['messaging']` loop of
`app.process_entry`. -/
def foldMessaging (api : AdapterCall → ApiResult) (today : Nat)
    (client_id : Nat) : List MessagingEvent → DB → DB × List AdapterCall
  | [], db => (db, [])
  | ev :: rest, db =>
    let p := process_messaging_event api db today client_id ev
    let q := foldMessaging api today client_id rest p.1
    (q.1, p.2 ++ q.2)

/-- The `for change in entry['changes']` loop of `app.process_entry`: the
first raised exception stops the loop and escapes. -/
def foldChanges (api : AdapterCall → ApiResult) (today : Nat)
    (client_id : Nat) : List ChangeEvent → DB → DB × List AdapterCall × Option String
  | [], db => (db, [], none)
  | ch :: rest, db =>
    match process_change_event api db today client_id ch with
    | .error m => (db, [], some m)
    | .ok p =>
      let q := foldChanges api today client_id rest p.1
      (q.1, p.2 ++ q.2.1, q.2.2)

/-- `app.process_entry`: the `messaging` list then the `changes` list of one
entry; the third component is the exception escaping per-entry processing, if
any. -/
def process_entry (api : AdapterCall → ApiResult) (db : DB) (today : Nat)
    (client_id : Nat) (e : Entry) : DB × List AdapterCall × Option String :=
  let pm :=
    match e.messaging with
    | some evs => foldMessaging api today client_id evs db
    | none => (db, [])
  match e.changes with
  | some chs =>
    let pc := foldChanges api today client_id chs pm.1
    (pc.1, pm.2 ++ pc.2.1, pc.2.2)
  | none => (pm.1, pm.2, none)

/-- The `for entry in data['entry']` loop of `app.webhook_receive`: there is no
per-entry try/except, so the first escaping exception aborts the loop. -/
def foldEntries (api : AdapterCall → ApiResult) (today : Nat)
    (client_id : Nat) : List Entry → DB → DB × List AdapterCall × Option String
  | [], db => (db, [], none)
  | e :: rest, db =>
    let p := process_entry api db today client_id e
    match p.2.2 with
    | some m => (p.1, p.2.1, some m)
    | none =>
      let q := foldEntries api today client_id rest p.1
      (q.1, p.2.1 ++ q.2.1, q.2.2)

/-- An HTTP response as (body, status code). -/
structure HttpResponse where
  body : String
  status : Nat
deriving DecidableEq, Repr

/-- `app.webhook_receive` (`POST /webhook/<verify_token>`): resolve the tenant
by path token, reject unknown tokens, short-circuit inactive tenants with a
success code, log the webhook, process the entries, and acknowledge; an
exception escaping the entry loop lands in the outer `except`, which returns
status 500 and skips `mark_webhook_processed`. -/
def webhook_receive (api : AdapterCall → ApiResult) (db : DB) (today : Nat)
    (verify_token : String) (body : Body) : HttpResponse × DB × List AdapterCall :=
  match get_client_by_verify_token db verify_token with
  | none => (⟨"Forbidden", 403⟩, db, [])
  | some client =>
    if client.active then
      let logged := log_webhook db "instagram_event" body (some client.id)
      let r :=
        match body.entry with
        | some es => foldEntries api today client.id es logged.2
        | none => (logged.2, [], none)
      match r.2.2 with
      | some _ => (⟨"ERROR", 500⟩, r.1, r.2.1)
      | none => (⟨"EVENT_RECEIVED", 200⟩, mark_webhook_processed r.1 logged.1.id none, r.2.1)
    else (⟨"CLIENT_INACTIVE", 200⟩, db, [])

/-- `app.send_message` behind `app.require_api_key`
(`POST /api/send-message`): a missing or invalid key is rejected with 401;
otherwise one `send_message` adapter call is made with the resolved tenant's
credentials and logged, with no check of the tenant's `active` flag; a raised
exception yields a 500 with no `Message` row. -/
def send_message_route (api : AdapterCall → ApiResult) (db : DB) (now : Nat)
    (api_key_header : Option String) (recipient_id message_text : String) :
    HttpResponse × DB × List AdapterCall :=
  match api_key_header with
  | none => (⟨"API Key required", 401⟩, db, [])
  | some key =>
    let v := validate_api_key db now key
    match v.1 with
    | none => (⟨"Invalid API Key", 401⟩, v.2, [])
    | some client =>
      let call := AdapterCall.sendMessage (some recipient_id) message_text
      match api call with
      | .ret t => (⟨"success", 200⟩, log_message v.2 client.id (some recipient_id) "dm" (some message_text) none t none, [call])
      | .exn m => (⟨m, 500⟩, v.2, [call])

/-! Concrete example data used to exhibit witnesses and counterexamples. -/

/-- A template tenant used by the concrete examples. -/
def baseClient : Client := { id := 1, name := "Empresa", email := "a@b.c", access_token := "at1", instagram_account_id := "ig1", page_id := "pg1", verify_token := "vt1", keywords := [], auto_reply_enabled := true, custom_responses := [], active := true, daily_message_limit := 10, messages_sent_today := 0, last_reset_date := some 0 }

/-- A store holding exactly one tenant row. -/
def dbOf (c : Client) : DB := { clients := [c], messages := [], webhooks := [], api_keys := [] }

/-- An adapter oracle whose every call returns a truthy result. -/
def apiOk : AdapterCall → ApiResult := fun _ => .ret true

/-- An adapter oracle whose every call raises an exception. -/
def apiBoom : AdapterCall → ApiResult := fun _ => .exn "boom"

/-- Tenant whose counter is mid-day non-zero, last reset on day 0. -/
def c2c : Client := { baseClient with messages_sent_today := 5 }

def c2db : DB := dbOf c2c

/-- Tenant whose daily quota is exhausted (counter = limit). -/
def c3c : Client := { baseClient with messages_sent_today := 10 }

def c3db : DB := dbOf c3c

/-- Tenant with a comment keyword configured. -/
def c4c : Client := { baseClient with keywords := ["preço"] }

def c4db : DB := dbOf c4c

/-- Tenant with auto-reply disabled and stale quota state from day 0. -/
def c7c : Client := { baseClient with auto_reply_enabled := false, messages_sent_today := 5 }

def c7db : DB := dbOf c7c

def c5c : Client := { baseClient with messages_sent_today := 3, daily_message_limit := 5, last_reset_date := some 7 }

def c5db : DB := dbOf c5c

def c6a : Client := { baseClient with verify_token := "vtA" }

def c6b : Client := { baseClient with id := 2, email := "b@b.c", verify_token := "vtB" }

def c6db : DB := { clients := [c6a, c6b], messages := [], webhooks := [], api_keys := [] }

/-- Deactivated (soft-deleted) tenant. -/
def c10c : Client := { baseClient with active := false }

/-- An active credential key owned by the deactivated tenant. -/
def k10 : ApiKey := { id := 1, client_id := 1, key := "sk_test", name := "k", active := true, last_used_at := none }

def c10db : DB := { clients := [c10c], messages := [], webhooks := [], api_keys := [k10] }

/-- A messaging event flagged as an echo. -/
def ev9 : MessagingEvent := { sender_id := some "u", message := some { is_echo := true, text := "oi" }, story_mention := none }

/-- A comments change whose dict has no `value` key: processing it raises. -/
def badEntry : Entry := { messaging := none, changes := some [{ field := some "comments", value := none }] }

/-- A well-formed comments change matching the tenant keyword `preço`. -/
def goodEntry : Entry := { messaging := none, changes := some [{ field := some "comments", value := some { id := some "c9", text := "qual o preço?", username := "bob" } }] }

/-! Helper lemmas about the store operations. -/

theorem find?_commit (l : List Client) (i : Nat) (c c' : Client)
    (h : l.find? (fun a => a.id == i) = some c) (hid : c'.id = i) :
    (l.map (fun a => if a.id == c'.id then c' else a)).find? (fun a => a.id == i) = some c' := by
  induction l with
  | nil => simp at h
  | cons x xs ih =>
    by_cases hx : x.id = i
    · have hxc' : (x.id == c'.id) = true := by simp [hx, hid]
      simp only [List.map_cons, hxc', if_true]
      exact List.find?_cons_of_pos _ (by simp [hid])
    · have hxc' : (x.id == c'.id) = false := by simp [hx, hid]
      rw [List.find?_cons_of_neg _ (by simp [hx])] at h
      simp only [List.map_cons, hxc', if_false, Bool.false_eq_true]
      rw [List.find?_cons_of_neg _ (by simp [hx])]
      exact ih h

theorem get_client_commit (db : DB) (client_id : Nat) (c c' : Client)
    (h : get_client db client_id = some c) (hid : c'.id = client_id) :
    get_client (commitClient db c') client_id = some c' :=
  find?_commit db.clients client_id c c' h hid

theorem commitClient_messages (db : DB) (c' : Client) :
    (commitClient db c').messages = db.messages := rfl

theorem commitClient_webhooks (db : DB) (c' : Client) :
    (commitClient db c').webhooks = db.webhooks := rfl

theorem check_rate_limit_same_day (db : DB) (today : Nat) (c : Client)
    (hget : get_client db c.id = some c) (hday : c.last_reset_date = some today) :
    check_rate_limit db today c.id =
      (decide (c.messages_sent_today < c.daily_message_limit), db) := by
  unfold check_rate_limit
  rw [hget]
  simp [hday]

theorem check_rate_limit_rollover (db : DB) (today : Nat) (c : Client)
    (hget : get_client db c.id = some c) (hday : c.last_reset_date ≠ some today) :
    check_rate_limit db today c.id =
      (decide (0 < c.daily_message_limit),
       commitClient db { c with messages_sent_today := 0, last_reset_date := some today }) := by
  unfold check_rate_limit
  rw [hget]
  simp [hday]

theorem increment_message_count_eq (db : DB) (c : Client)
    (hget : get_client db c.id = some c) :
    increment_message_count db c.id =
      commitClient db { c with messages_sent_today := c.messages_sent_today + 1 } := by
  unfold increment_message_count
  rw [hget]

theorem increment_messages (db : DB) (client_id : Nat) :
    (increment_message_count db client_id).messages = db.messages := by
  unfold increment_message_count
  cases hget : get_client db client_id with
  | none => rfl
  | some c => rfl

theorem log_message_messages (db : DB) (client_id : Nat) (recipient_id : Option String)
    (message_type : String) (message_text : Option String) (media_url : Option String)
    (sent : Bool) (error : Option String) :
    (log_message db client_id recipient_id message_type message_text media_url sent error).messages =
      db.messages ++ [{ client_id := client_id, recipient_id := recipient_id, message_type := message_type, message_text := message_text, media_url := media_url, sent := sent, error := error }] := by
  unfold log_message
  cases sent with
  | false => rfl
  | true => rw [if_pos rfl, increment_messages]

theorem get_client_id (db : DB) (client_id : Nat) (c : Client)
    (h : get_client db client_id = some c) : c.id = client_id := by
  have := List.find?_some h
  simpa using this

theorem get_client_after_check (db : DB) (today : Nat) (c : Client)
    (hget : get_client db c.id = some c) :
    get_client (check_rate_limit db today c.id).2 c.id =
      some (if c.last_reset_date = some today then c
            else { c with messages_sent_today := 0, last_reset_date := some today }) := by
  by_cases hday : c.last_reset_date = some today
  · rw [check_rate_limit_same_day db today c hget hday, if_pos hday]
    exact hget
  · rw [check_rate_limit_rollover db today c hget hday, if_neg hday]
    exact get_client_commit db c.id c _ hget rfl

theorem check_messages (db : DB) (today : Nat) (client_id : Nat) :
    (check_rate_limit db today client_id).2.messages = db.messages := by
  unfold check_rate_limit
  cases hget : get_client db client_id with
  | none => rfl
  | some c =>
    by_cases hday : c.last_reset_date = some today
    · simp [hday]
    · simp [hday, commitClient_messages]

theorem find?_token_unique (l : List Client) (T : Client) (hT : T ∈ l)
    (huniq : l.Pairwise (fun a b => a.verify_token ≠ b.verify_token)) :
    l.find? (fun c => c.verify_token == T.verify_token) = some T := by
  induction l with
  | nil => cases hT
  | cons x xs ih =>
    rcases List.mem_cons.mp hT with rfl | hmem
    · exact List.find?_cons_of_pos _ (by simp)
    · have hx : x.verify_token ≠ T.verify_token :=
        (List.pairwise_cons.mp huniq).1 T hmem
      rw [List.find?_cons_of_neg _ (by simp [hx])]
      exact ih hmem (List.pairwise_cons.mp huniq).2

theorem process_message_no_autoreply (api : AdapterCall → ApiResult) (db : DB)
    (today client_id : Nat) (sid : Option String) (text : String)
    (h : ∀ c', get_client (check_rate_limit db today client_id).2 client_id = some c' →
      c'.auto_reply_enabled = false) :
    process_message api db today client_id sid text =
      ((check_rate_limit db today client_id).2, []) := by
  unfold process_message
  cases hok : (check_rate_limit db today client_id).1 with
  | false => simp [hok]
  | true =>
    cases hc' : get_client (check_rate_limit db today client_id).2 client_id with
    | none => simp [hok, hc']
    | some c' => simp [hok, hc', h c' hc']

theorem process_comment_no_autoreply (api : AdapterCall → ApiResult) (db : DB)
    (today client_id : Nat) (comment_id : Option String) (comment_text username : String)
    (h : ∀ c', get_client (check_rate_limit db today client_id).2 client_id = some c' →
      c'.auto_reply_enabled = false) :
    process_comment api db today client_id comment_id comment_text username =
      ((check_rate_limit db today client_id).2, []) := by
  unfold process_comment
  cases hok : (check_rate_limit db today client_id).1 with
  | false => simp [hok]
  | true =>
    cases hc' : get_client (check_rate_limit db today client_id).2 client_id with
    | none => simp [hok, hc']
    | some c' => simp [hok, hc', h c' hc']

/-! Claim theorems. -/

/-- C5: for every existing tenant, a successful increment raises
`messages_sent_today` by exactly 1; a same-day check returns false exactly when
`messages_sent_today >= daily_message_limit` and leaves the store untouched;
and a check never increases the counter (it reserves no slot). -/
theorem C5_quota_invariant (db : DB) (today : Nat) (c : Client)
    (hget : get_client db c.id = some c) :
    get_client (increment_message_count db c.id) c.id =
        some { c with messages_sent_today := c.messages_sent_today + 1 }
    ∧ (c.last_reset_date = some today →
        ((check_rate_limit db today c.id).1 = false ↔
            c.daily_message_limit ≤ c.messages_sent_today)
        ∧ (check_rate_limit db today c.id).2 = db)
    ∧ (∀ c', get_client (check_rate_limit db today c.id).2 c.id = some c' →
        c'.messages_sent_today ≤ c.messages_sent_today) := by
  refine ⟨?_, ?_, ?_⟩
  · rw [increment_message_count_eq db c hget]
    exact get_client_commit db c.id c _ hget rfl
  · intro hday
    rw [check_rate_limit_same_day db today c hget hday]
    exact ⟨by simp [Nat.not_lt], rfl⟩
  · intro c' h'
    rw [get_client_after_check db today c hget] at h'
    have h'' := Option.some.inj h'
    subst h''
    by_cases hday : c.last_reset_date = some today <;> simp [hday]

/-- C5 witness: a concrete tenant with counter 3, limit 5, last reset day 7. -/
theorem C5_witness :
    get_client c5db c5c.id = some c5c ∧
    get_client (increment_message_count c5db c5c.id) c5c.id =
      some { c5c with messages_sent_today := c5c.messages_sent_today + 1 } :=
  ⟨by decide, (C5_quota_invariant c5db 7 c5c (by decide)).1⟩

/-- C6: with verification tokens pairwise distinct across the directory,
resolving by token returns tenant T exactly when the supplied token equals
T's stored token (an exact-equality constant-set lookup, no prefix match). -/
theorem C6_token_resolution (db : DB) (T : Client) (tok : String)
    (hT : T ∈ db.clients)
    (huniq : db.clients.Pairwise (fun a b => a.verify_token ≠ b.verify_token)) :
    get_client_by_verify_token db tok = some T ↔ tok = T.verify_token := by
  constructor
  · intro h
    unfold get_client_by_verify_token at h
    have hp := List.find?_some h
    have : T.verify_token = tok := by simpa using hp
    exact this.symm
  · intro h
    subst h
    unfold get_client_by_verify_token
    exact find?_token_unique db.clients T hT huniq

/-- C6 witness: a two-tenant directory with distinct tokens. -/
theorem C6_witness :
    c6a ∈ c6db.clients ∧
    c6db.clients.Pairwise (fun a b => a.verify_token ≠ b.verify_token) ∧
    get_client_by_verify_token c6db "vtA" = some c6a :=
  ⟨by decide, by decide,
    (C6_token_resolution c6db c6a "vtA" (by decide) (by decide)).mpr (by decide)⟩

/-- C9: a messaging event flagged as an echo is dropped before any handler
runs: the store is unchanged (no Message Record) and no adapter call is
made. -/
theorem C9_echo_suppression (api : AdapterCall → ApiResult) (db : DB)
    (today client_id : Nat) (ev : MessagingEvent) (m : MessageBody)
    (hm : ev.message = some m) (he : m.is_echo = true) :
    process_messaging_event api db today client_id ev = (db, []) := by
  unfold process_messaging_event
  rw [hm]
  simp [he]

/-- C9 witness: a concrete echo-flagged event. -/
theorem C9_witness :
    ev9.message = some { is_echo := true, text := "oi" } ∧
    process_messaging_event apiOk (dbOf baseClient) 0 1 ev9 = (dbOf baseClient, []) :=
  ⟨by decide,
    C9_echo_suppression apiOk (dbOf baseClient) 0 1 ev9
      { is_echo := true, text := "oi" } (by decide) (by decide)⟩

/-- C10: credential-key validation checks only the key's own active flag:
an active key of a deactivated tenant still resolves to that tenant, and the
authenticated send route then makes the adapter call and logs the Message
Record for the inactive tenant. -/
theorem C10_inactive_tenant_key (api : AdapterCall → ApiResult) (db : DB)
    (now : Nat) (key : String) (k : ApiKey) (c : Client)
    (hfind : db.api_keys.find? (fun a => a.key == key && a.active) = some k)
    (hc : get_client db k.client_id = some c)
    (hinactive : c.active = false) :
    (validate_api_key db now key).1 = some c
    ∧ ∀ recipient text t,
        api (AdapterCall.sendMessage (some recipient) text) = ApiResult.ret t →
        (send_message_route api db now (some key) recipient text).1 = ⟨"success", 200⟩
        ∧ (send_message_route api db now (some key) recipient text).2.2 =
            [AdapterCall.sendMessage (some recipient) text]
        ∧ (send_message_route api db now (some key) recipient text).2.1.messages =
            db.messages ++ [{ client_id := c.id, recipient_id := some recipient, message_type := "dm", message_text := some text, media_url := none, sent := t, error := none }] := by
  have h1 : (validate_api_key db now key).1 = some c := by
    unfold validate_api_key
    rw [hfind]
    exact hc
  have h2 : (validate_api_key db now key).2.messages = db.messages := by
    unfold validate_api_key
    rw [hfind]
  refine ⟨h1, ?_⟩
  intro recipient text t hret
  simp only [send_message_route, h1, hret]
  refine ⟨trivial, trivial, ?_⟩
  rw [log_message_messages, h2]

/-- C10 witness: a deactivated tenant whose active key still validates. -/
theorem C10_witness :
    c10db.api_keys.find? (fun a => a.key == "sk_test" && a.active) = some k10 ∧
    get_client c10db k10.client_id = some c10c ∧
    c10c.active = false ∧
    (validate_api_key c10db 5 "sk_test").1 = some c10c :=
  ⟨by decide, by decide, by decide,
    (C10_inactive_tenant_key apiOk c10db 5 "sk_test" k10 c10c
      (by decide) (by decide) (by decide)).1⟩

/-- C2 counterexample: a tenant with `last_reset_date` on day 0 and counter 5;
an increment performed on day 1 as the first quota operation of the day yields
counter 6 with `last_reset_date` still day 0 — not the reset to 0-then-1 and
date update the claim requires (`increment_message_count` takes no date at
all). -/
theorem C2_counterexample :
    c2c.last_reset_date = some 0 ∧ c2c.messages_sent_today = 5 ∧
    (get_client (increment_message_count c2db 1) 1).map Client.messages_sent_today = some 6 ∧
    (get_client (increment_message_count c2db 1) 1).map Client.last_reset_date = some (some 0) := by
  decide

/-- C2 amended: only a `check` performs the day-rollover reset (counter to 0,
`last_reset_date` to today); a stand-alone increment merely adds 1 to the
counter and leaves `last_reset_date` untouched, whatever the calendar day. -/
theorem C2_amended (db : DB) (today : Nat) (c : Client)
    (hget : get_client db c.id = some c) (hday : c.last_reset_date ≠ some today) :
    get_client (check_rate_limit db today c.id).2 c.id =
      some { c with messages_sent_today := 0, last_reset_date := some today }
    ∧ (check_rate_limit db today c.id).1 = decide (0 < c.daily_message_limit)
    ∧ get_client (increment_message_count db c.id) c.id =
        some { c with messages_sent_today := c.messages_sent_today + 1 } := by
  refine ⟨?_, ?_, ?_⟩
  · rw [check_rate_limit_rollover db today c hget hday]
    exact get_client_commit db c.id c _ hget rfl
  · rw [check_rate_limit_rollover db today c hget hday]
  · rw [increment_message_count_eq db c hget]
    exact get_client_commit db c.id c _ hget rfl

/-- C2 witness: the first check of day 1 does reset the concrete tenant. -/
theorem C2_witness :
    get_client c2db c2c.id = some c2c ∧ c2c.last_reset_date ≠ some 1 ∧
    get_client (check_rate_limit c2db 1 c2c.id).2 c2c.id =
      some { c2c with messages_sent_today := 0, last_reset_date := some 1 } :=
  ⟨by decide, by decide, (C2_amended c2db 1 c2c (by decide) (by decide)).1⟩

/-- C3 counterexample: a tenant with auto-reply enabled whose daily quota is
exhausted (counter = limit = 10) still gets a story-mention reply: the story
handler makes the adapter call and creates a story-mention Message Record,
because it performs no quota check. -/
theorem C3_counterexample :
    c3c.daily_message_limit ≤ c3c.messages_sent_today ∧
    c3c.auto_reply_enabled = true ∧
    (process_mention apiOk c3db 1 (some "user") (some "media")).2 =
      [AdapterCall.sendMessage (some "user") storyAckText] ∧
    (process_mention apiOk c3db 1 (some "user") (some "media")).1.messages.map
      Message.message_type = ["story_mention"] := by
  decide

/-- C3 amended: a story-mention reply is attempted whenever the tenant's
auto-reply is enabled, with no quota check at all (note the absence of any
hypothesis on `messages_sent_today`); when auto-reply is disabled nothing
happens; a Message Record is appended exactly when the adapter call returns. -/
theorem C3_amended (api : AdapterCall → ApiResult) (db : DB)
    (sid mid : Option String) (c : Client)
    (hget : get_client db c.id = some c) :
    (c.auto_reply_enabled = false → process_mention api db c.id sid mid = (db, []))
    ∧ (c.auto_reply_enabled = true →
        (process_mention api db c.id sid mid).2 = [AdapterCall.sendMessage sid storyAckText]
        ∧ (∀ t, api (AdapterCall.sendMessage sid storyAckText) = ApiResult.ret t →
            (process_mention api db c.id sid mid).1.messages =
              db.messages ++ [{ client_id := c.id, recipient_id := sid, message_type := "story_mention", message_text := some storyAckText, media_url := none, sent := t, error := none }])
        ∧ (∀ m, api (AdapterCall.sendMessage sid storyAckText) = ApiResult.exn m →
            (process_mention api db c.id sid mid).1 = db)) := by
  constructor
  · intro har
    unfold process_mention
    rw [hget]
    simp [har]
  · intro har
    refine ⟨?_, ?_, ?_⟩
    · unfold process_mention
      rw [hget]
      cases hapi : api (AdapterCall.sendMessage sid storyAckText) <;> simp [har, hapi]
    · intro t ht
      unfold process_mention
      rw [hget]
      simp [har, ht, log_message_messages]
    · intro m hm
      unfold process_mention
      rw [hget]
      simp [har, hm]

/-- C3 witness: the amended statement applied to the quota-exhausted tenant. -/
theorem C3_witness :
    get_client c3db c3c.id = some c3c ∧ c3c.auto_reply_enabled = true ∧
    (process_mention apiOk c3db c3c.id (some "user") (some "media")).2 =
      [AdapterCall.sendMessage (some "user") storyAckText] :=
  ⟨by decide, by decide,
    ((C3_amended apiOk c3db (some "user") (some "media") c3c (by decide)).2 (by decide)).1⟩

/-- C7 counterexample: a tenant with auto-reply disabled, counter 5 and
`last_reset_date` on day 0; processing a direct message on day 1 sends nothing
and records nothing, but the quota check runs first and resets the counter to
0 and `last_reset_date` to day 1 — the tenant state is NOT left unchanged. -/
theorem C7_counterexample :
    c7c.auto_reply_enabled = false ∧ c7c.messages_sent_today = 5 ∧
    (process_message apiOk c7db 1 1 (some "u") "oi").2 = [] ∧
    (process_message apiOk c7db 1 1 (some "u") "oi").1.messages = [] ∧
    (get_client (process_message apiOk c7db 1 1 (some "u") "oi").1 1).map
      Client.messages_sent_today = some 0 ∧
    (get_client (process_message apiOk c7db 1 1 (some "u") "oi").1 1).map
      Client.last_reset_date = some (some 1) := by
  decide

/-- C7 amended: with auto-reply disabled, processing a direct message or a
comment selects no response, makes no adapter call and creates no Message
Record, but the store becomes exactly the result of the quota check, which on
a new calendar day resets `messages_sent_today` and `last_reset_date`; on a
same-day event the store is fully unchanged. -/
theorem C7_amended (api : AdapterCall → ApiResult) (db : DB) (today : Nat)
    (sid : Option String) (text : String) (comment_id : Option String)
    (comment_text username : String) (c : Client)
    (hget : get_client db c.id = some c) (har : c.auto_reply_enabled = false) :
    process_message api db today c.id sid text = ((check_rate_limit db today c.id).2, [])
    ∧ process_comment api db today c.id comment_id comment_text username =
        ((check_rate_limit db today c.id).2, [])
    ∧ (check_rate_limit db today c.id).2.messages = db.messages
    ∧ (c.last_reset_date = some today → (check_rate_limit db today c.id).2 = db) := by
  have hpost : ∀ c', get_client (check_rate_limit db today c.id).2 c.id = some c' →
      c'.auto_reply_enabled = false := by
    intro c' h'
    rw [get_client_after_check db today c hget] at h'
    have h'' := Option.some.inj h'
    subst h''
    by_cases hday : c.last_reset_date = some today <;> simp [hday, har]
  refine ⟨process_message_no_autoreply api db today c.id sid text hpost,
         process_comment_no_autoreply api db today c.id comment_id comment_text username hpost,
         check_messages db today c.id, ?_⟩
  intro hday
  rw [check_rate_limit_same_day db today c hget hday]

/-- C7 witness: the amended statement applied to the concrete disabled
tenant. -/
theorem C7_witness :
    get_client c7db c7c.id = some c7c ∧ c7c.auto_reply_enabled = false ∧
    process_message apiOk c7db 1 c7c.id (some "u") "oi" =
      ((check_rate_limit c7db 1 c7c.id).2, []) :=
  ⟨by decide, by decide,
    (C7_amended apiOk c7db 1 (some "u") "oi" (some "cm") "txt" "user" c7c
      (by decide) (by decide)).1⟩

/-- C8 counterexample: with the custom mapping `{"promo": ""}` and message
text "ask about promo today", the keyword `promo` matches and wins the scan,
but its mapped text (the empty string) is NOT used verbatim: Python's
`if not response:` treats it as falsy and the built-in catch-all is sent. -/
theorem C8_counterexample :
    findCustom [("promo", "")] "ask about promo today" = some "" ∧
    pickResponse [("promo", "")] "ask about promo today" =
      "Obrigado pela sua mensagem! 🙂 Em breve retornaremos." ∧
    pickResponse [("promo", "")] "ask about promo today" ≠ "" := by
  decide

/-- C8 amended: the custom mapping is scanned in stored order and the first
keyword whose lowercase form is a substring of the lowercased text wins; its
mapped text is used verbatim provided it is non-empty, an empty (falsy) mapped
text falling through to the built-in category logic; only when no custom
keyword matches (or the winning text is empty) is a built-in response used;
the spec's own example `{"promo": "X"}` does yield "X". -/
theorem C8_amended :
    (∀ (k v : String) (rest : List (String × String)) (t : String),
        substrOf (strLower k) t = true → findCustom ((k, v) :: rest) t = some v)
    ∧ (∀ (custom : List (String × String)) (t r : String),
        findCustom custom t = some r → r ≠ "" → pickResponse custom t = r)
    ∧ (∀ (custom : List (String × String)) (t : String),
        findCustom custom t = some "" → pickResponse custom t = get_default_response t)
    ∧ (∀ (custom : List (String × String)) (t : String),
        findCustom custom t = none → pickResponse custom t = get_default_response t)
    ∧ pickResponse [("promo", "X")] (strLower "ask about promo today") = "X" := by
  refine ⟨?_, ?_, ?_, ?_, by decide⟩
  · intro k v rest t hk
    unfold findCustom
    simp [hk]
  · intro custom t r h hne
    unfold pickResponse
    rw [h]
    simp [hne]
  · intro custom t h
    unfold pickResponse
    rw [h]
    simp
  · intro custom t h
    unfold pickResponse
    rw [h]

/-- C8 witness: the first-match and verbatim-use parts at the spec's own
example. -/
theorem C8_witness :
    findCustom [("promo", "X")] "ask about promo today" = some "X" ∧
    pickResponse [("promo", "X")] "ask about promo today" = "X" :=
  ⟨by decide,
    C8_amended.2.1 [("promo", "X")] "ask about promo today" "X" (by decide) (by decide)⟩

/-- C4 counterexample: a comment reply attempt whose adapter call raises
produces NO Message Record at all (the comment handler's except branch only
logs), refuting "every send attempt produces exactly one Message Record". -/
theorem C4_counterexample :
    (process_comment apiBoom c4db 0 1 (some "c1") "qual o preço?" "bob").2 =
      [AdapterCall.replyToComment (some "c1") "@bob Oi! Enviamos os preços por DM! 📩"] ∧
    (process_comment apiBoom c4db 0 1 (some "c1") "qual o preço?" "bob").1.messages = [] := by
  decide

/-- C4 amended: a direct-message send attempt always produces exactly one
Message Record — on a raised adapter exception the record is unsent and
captures the error text; a comment-reply or story-acknowledgement attempt
produces exactly one record only when the adapter call returns (sent
reflecting truthiness of the result, error empty), and produces no record
when the adapter call raises, the exception being swallowed. -/
theorem C4_amended (api : AdapterCall → ApiResult) (db : DB) (today : Nat)
    (c : Client)
    (hok : (check_rate_limit db today c.id).1 = true)
    (hc : get_client (check_rate_limit db today c.id).2 c.id = some c)
    (har : c.auto_reply_enabled = true) :
    (∀ sid text,
      (process_message api db today c.id sid text).2 =
        [AdapterCall.sendMessage sid (pickResponse c.custom_responses (strLower text))]
      ∧ (∀ t, api (AdapterCall.sendMessage sid (pickResponse c.custom_responses (strLower text))) = ApiResult.ret t →
          (process_message api db today c.id sid text).1.messages =
            (check_rate_limit db today c.id).2.messages ++
              [{ client_id := c.id, recipient_id := sid, message_type := "dm", message_text := some (pickResponse c.custom_responses (strLower text)), media_url := none, sent := t, error := none }])
      ∧ (∀ m, api (AdapterCall.sendMessage sid (pickResponse c.custom_responses (strLower text))) = ApiResult.exn m →
          (process_message api db today c.id sid text).1.messages =
            (check_rate_limit db today c.id).2.messages ++
              [{ client_id := c.id, recipient_id := sid, message_type := "dm", message_text := some (pickResponse c.custom_responses (strLower text)), media_url := none, sent := false, error := some m }]))
    ∧ (∀ comment_id comment_text username,
        c.keywords.any (fun k => substrOf (strLower k) (strLower comment_text)) = true →
        (process_comment api db today c.id comment_id comment_text username).2 =
          [AdapterCall.replyToComment comment_id (generate_comment_response (strLower comment_text) username)]
        ∧ (∀ t, api (AdapterCall.replyToComment comment_id (generate_comment_response (strLower comment_text) username)) = ApiResult.ret t →
            (process_comment api db today c.id comment_id comment_text username).1.messages =
              (check_rate_limit db today c.id).2.messages ++
                [{ client_id := c.id, recipient_id := some username, message_type := "comment", message_text := some (generate_comment_response (strLower comment_text) username), media_url := none, sent := t, error := none }])
        ∧ (∀ m, api (AdapterCall.replyToComment comment_id (generate_comment_response (strLower comment_text) username)) = ApiResult.exn m →
            (process_comment api db today c.id comment_id comment_text username).1.messages =
              (check_rate_limit db today c.id).2.messages))
    ∧ (∀ (db' : DB) (sid mid : Option String), get_client db' c.id = some c →
        (∀ t, api (AdapterCall.sendMessage sid storyAckText) = ApiResult.ret t →
          (process_mention api db' c.id sid mid).1.messages =
            db'.messages ++ [{ client_id := c.id, recipient_id := sid, message_type := "story_mention", message_text := some storyAckText, media_url := none, sent := t, error := none }])
        ∧ (∀ m, api (AdapterCall.sendMessage sid storyAckText) = ApiResult.exn m →
          (process_mention api db' c.id sid mid).1.messages = db'.messages)) := by
  refine ⟨?_, ?_, ?_⟩
  · intro sid text
    refine ⟨?_, ?_, ?_⟩
    · unfold process_message
      cases hapi : api (AdapterCall.sendMessage sid (pickResponse c.custom_responses (strLower text))) <;>
        simp [hok, hc, har, hapi]
    · intro t ht
      unfold process_message
      simp [hok, hc, har, ht, log_message_messages]
    · intro m hm
      unfold process_message
      simp [hok, hc, har, hm, log_message_messages]
  · intro comment_id comment_text username hkw
    refine ⟨?_, ?_, ?_⟩
    · unfold process_comment
      cases hapi : api (AdapterCall.replyToComment comment_id (generate_comment_response (strLower comment_text) username)) <;>
        simp [hok, hc, har, hkw, hapi]
    · intro t ht
      unfold process_comment
      simp [hok, hc, har, hkw, ht, log_message_messages]
    · intro m hm
      unfold process_comment
      simp [hok, hc, har, hkw, hm]
  · intro db' sid mid hget'
    refine ⟨?_, ?_⟩
    · intro t ht
      unfold process_mention
      rw [hget']
      simp [har, ht, log_message_messages]
    · intro m hm
      unfold process_mention
      rw [hget']
      simp [har, hm]

/-- C4 witness: the direct-message part at a concrete tenant whose quota check
passes on the same day. -/
theorem C4_witness :
    (check_rate_limit c4db 0 c4c.id).1 = true ∧
    get_client (check_rate_limit c4db 0 c4c.id).2 c4c.id = some c4c ∧
    (process_message apiOk c4db 0 c4c.id (some "u") "oi").2 =
      [AdapterCall.sendMessage (some "u") (pickResponse c4c.custom_responses (strLower "oi"))] :=
  ⟨by decide, by decide,
    ((C4_amended apiOk c4db 0 c4c (by decide) (by decide) (by decide)).1 (some "u") "oi").1⟩

/-- C1 counterexample: a delivery whose first entry is a malformed comments
change (no `value` key) raises; the well-formed sibling entry is never
processed (no Message Record is created although processing it alone creates
one), and the delivery returns "ERROR" with status 500 instead of the
"EVENT_RECEIVED" success acknowledgement. -/
theorem C1_counterexample :
    (webhook_receive apiOk c4db 0 "vt1" { entry := some [badEntry, goodEntry] }).1 =
      ⟨"ERROR", 500⟩ ∧
    (webhook_receive apiOk c4db 0 "vt1" { entry := some [badEntry, goodEntry] }).2.1.messages = [] ∧
    (webhook_receive apiOk c4db 0 "vt1" { entry := some [goodEntry] }).1 =
      ⟨"EVENT_RECEIVED", 200⟩ ∧
    (webhook_receive apiOk c4db 0 "vt1" { entry := some [goodEntry] }).2.1.messages.map
      Message.message_type = ["comment"] := by
  decide

/-- C1 amended: an exception escaping one entry's processing aborts the loop —
the remaining sibling entries contribute nothing (store and adapter calls are
exactly those of the prefix up to and including the failing entry) — and such
a delivery returns "ERROR" with status 500, not the generic "received"
acknowledgement. -/
theorem C1_amended (api : AdapterCall → ApiResult) (today client_id : Nat)
    (db : DB) (e : Entry) (rest : List Entry) (m : String)
    (hfail : (process_entry api db today client_id e).2.2 = some m)
    (db0 : DB) (tok : String) (body : Body) (client : Client)
    (es : List Entry) (m' : String)
    (hc : get_client_by_verify_token db0 tok = some client)
    (ha : client.active = true)
    (hb : body.entry = some es)
    (hm : (foldEntries api today client.id es
        (log_webhook db0 "instagram_event" body (some client.id)).2).2.2 = some m') :
    foldEntries api today client_id (e :: rest) db =
      ((process_entry api db today client_id e).1,
       (process_entry api db today client_id e).2.1, some m)
    ∧ (webhook_receive api db0 today tok body).1 = ⟨"ERROR", 500⟩ := by
  constructor
  · unfold foldEntries
    simp [hfail]
  · unfold webhook_receive
    rw [hc]
    simp [ha, hb, hm]

/-- C1 witness: the amended statement at the concrete malformed delivery. -/
theorem C1_witness :
    (webhook_receive apiOk c4db 0 "vt1" { entry := some [badEntry] }).1 =
      ⟨"ERROR", 500⟩ :=
  (C1_amended apiOk 0 c4c.id
    (log_webhook c4db "instagram_event" { entry := some [badEntry] } (some c4c.id)).2
    badEntry [] "AttributeError" (by decide)
    c4db "vt1" { entry := some [badEntry] } c4c [badEntry] "AttributeError"
    (by decide) (by decide) (by decide) (by decide)).2

end Agent
